import Mathlib

/-!
Verification of the presentation-normalization core of the `agenticmail/enterprise`
dashboards: agent field resolution, comma-list parsing, badge classification,
relative-time formatting, and config default-merging.  Python dict/list/scalar
values are modelled by the `JVal` inductive; Python truthiness, `dict.get`,
`x or y`, `str.strip`, `str.split`, `str.lower`/`upper` and `int()` are embedded
explicitly, and code paths that can raise are modelled in `Except`.
-/

set_option maxRecDepth 4000

namespace AgenticMail

/-- JSON-like values as handled by the Python dashboards: `None`, booleans,
integers, strings, lists, and string-keyed dicts (field order preserved). -/
inductive JVal where
  | null : JVal
  | bool (b : Bool) : JVal
  | int (n : Int) : JVal
  | str (s : String) : JVal
  | list (xs : List JVal) : JVal
  | obj (fields : List (String × JVal)) : JVal

/-- Python truthiness of a `JVal`: `None`, `False`, `0`, `""`, `[]`, `{}` are falsy. -/
def pyTruthy : JVal → Bool
  | .null => false
  | .bool b => b
  | .int n => n != 0
  | .str s => s != ""
  | .list xs => !xs.isEmpty
  | .obj fs => !fs.isEmpty

/-- Python `a or b`: `a` when `a` is truthy, otherwise `b`. -/
def pyOr (a b : JVal) : JVal := if pyTruthy a then a else b

/-- Lookup of a key in a dict's field list (first occurrence). -/
def jlookup (fs : List (String × JVal)) (k : String) : Option JVal :=
  fs.lookup k

/-- Python `d.get(k, dflt)` on a field list. -/
def jgetD (fs : List (String × JVal)) (k : String) (d : JVal) : JVal :=
  (jlookup fs k).getD d

/-- Python `v.get(k, dflt)`: succeeds on dicts, raises `AttributeError` otherwise. -/
def pyGet (v : JVal) (k : String) (d : JVal) : Except String JVal :=
  match v with
  | .obj fs => .ok (jgetD fs k d)
  | _ => .error "AttributeError"

/-- Python `str.lower` (ASCII model). -/
def pyLower (s : String) : String := ⟨s.data.map Char.toLower⟩

/-- Python `str.upper` (ASCII model). -/
def pyUpper (s : String) : String := ⟨s.data.map Char.toUpper⟩

/-- Whether `v` is a dict, as tested by `isinstance(v, dict)`. -/
def JVal.isObj : JVal → Bool
  | .obj _ => true
  | _ => false

/-! ### Splitting and the UUID pattern -/

/-- Splits a character list at a separator: head piece plus remaining pieces.
Mirrors Python `str.split(sep)` (keeps empty pieces). -/
def splitChP (sep : Char) : List Char → List Char × List (List Char)
  | [] => ([], [])
  | c :: rest =>
      let (p, ps) := splitChP sep rest
      if c = sep then ([], p :: ps) else (c :: p, ps)

/-- Python `s.split(sep)` on the character level: always at least one piece. -/
def splitCh (sep : Char) (l : List Char) : List (List Char) :=
  (splitChP sep l).1 :: (splitChP sep l).2

/-- Hexadecimal digit, as matched by `[0-9a-f]` under `re.IGNORECASE`. -/
def isHexCh (c : Char) : Bool :=
  c.isDigit || ('a' ≤ c && c ≤ 'f') || ('A' ≤ c && c ≤ 'F')

/-- Body of the UUID regex `[0-9a-f]{8}-[0-9a-f]{4}-[0-9a-f]{4}-[0-9a-f]{4}-[0-9a-f]{12}`
under `re.IGNORECASE`: five hyphen-separated all-hex groups of lengths 8-4-4-4-12. -/
def isUuidCore (s : String) : Bool :=
  match splitCh '-' s.data with
  | [a, b, c, d, e] =>
      a.length == 8 && b.length == 4 && c.length == 4 && d.length == 4 && e.length == 12
        && (a ++ b ++ c ++ d ++ e).all isHexCh
  | _ => false

/-- Embedding of `re.match(r'^<uuid>$', s, re.IGNORECASE) is not None`.  Python's
`$` also matches just before a single trailing newline, so a UUID followed by one
final `'\n'` matches as well. -/
def uuidRegexMatch (s : String) : Bool :=
  isUuidCore s ||
    (match s.data.getLast? with
     | some c => c == '\n' && isUuidCore ⟨s.data.dropLast⟩
     | none => false)

/-! ### The agent field resolver

Embedding of `_resolve_agent_fields` from `dashboards/python/routes/agents.py`
(identical in `dashboards/django/views/agents.py`).  Returns the tuple
`(display_name, email, avatar_initial, model)`; code paths where Python would
raise (`.get` on a non-dict, `re.match` on a non-string, subscript/`.upper()`
on an unsuitable value) are `Except.error`. -/

/-- The UUID-filter step `if email and re.match(...): email = ''`: the regex
runs only on truthy values and raises on a truthy non-string. -/
def emailFilter (email0 : JVal) : Except String JVal :=
  if pyTruthy email0 then
    match email0 with
    | .str s => Except.ok (if uuidRegexMatch s then JVal.str "" else JVal.str s)
    | _ => Except.error "TypeError"
  else
    Except.ok email0

/-- The avatar step `display_name[0].upper() if display_name else '?'`:
subscripting works on strings and lists, `.upper()` only on strings. -/
def avatarOf (displayName : JVal) : Except String String :=
  if pyTruthy displayName then
    match displayName with
    | .str s =>
        match s.data with
        | c :: _ => Except.ok (String.singleton c.toUpper)
        | [] => Except.error "IndexError"
    | .list (.str t :: _) => Except.ok (pyUpper t)
    | _ => Except.error "TypeError"
  else
    Except.ok "?"

/-- The model step: `model_raw.get('modelId') or model_raw.get('provider') or ''`
for dicts, the raw value unchanged otherwise. -/
def resolveModelRaw (modelRaw : JVal) : JVal :=
  match modelRaw with
  | .obj fs => pyOr (jgetD fs "modelId" .null) (pyOr (jgetD fs "provider" .null) (.str ""))
  | v => v

def resolveAgentFields (agent : JVal) : Except String (JVal × JVal × String × JVal) := do
  let config0 ← pyGet agent "config" .null
  let config := pyOr config0 (.obj [])
  let identity0 ← pyGet config "identity" .null
  let identity := pyOr identity0 (.obj [])
  let inm ← pyGet identity "name" .null
  let cnm ← pyGet config "name" .null
  let cdn ← pyGet config "displayName" .null
  let anm ← pyGet agent "name" (.str "")
  let displayName := pyOr inm (pyOr cnm (pyOr cdn anm))
  let iem ← pyGet identity "email" .null
  let cem ← pyGet config "email" .null
  let aem ← pyGet agent "email" (.str "")
  let email ← emailFilter (pyOr iem (pyOr cem aem))
  let avatar ← avatarOf displayName
  let modelRaw ← pyGet config "model" (.str "")
  return (displayName, email, avatar, resolveModelRaw modelRaw)

/-- Display-name component of the resolver (spec name `resolveDisplayName`). -/
def resolveDisplayName (agent : JVal) : Except String JVal :=
  (resolveAgentFields agent).map (·.1)

/-- Email component of the resolver (spec name `resolveEmail`). -/
def resolveEmail (agent : JVal) : Except String JVal :=
  (resolveAgentFields agent).map (·.2.1)

/-- Avatar-initial component of the resolver (spec name `resolveAvatarInitial`). -/
def resolveAvatarInitial (agent : JVal) : Except String String :=
  (resolveAgentFields agent).map (·.2.2.1)

/-- Model component of the resolver (spec name `resolveModel`). -/
def resolveModel (agent : JVal) : Except String JVal :=
  (resolveAgentFields agent).map (·.2.2.2)

/-! ### A family of string-shaped agent records

`mkAgent inm iem cnm cdn cem mdl anm aem` is the agent record

`{config: {identity: {name: inm, email: iem}, name: cnm, displayName: cdn,
  email: cem, (model: mdl)?}, name: anm, email: aem}`

where a `none` string field stands for an absent/null field (for the outer
`name`/`email`, whose `.get` default is `''`, `none` is encoded as `''`,
which Python treats identically in the fallback chains). -/

/-- Optional string field: `none` is the absent/null field. -/
def optS : Option String → JVal
  | none => .null
  | some s => .str s

def mkAgent (inm iem cnm cdn cem : Option String) (mdl : Option JVal)
    (anm aem : Option String) : JVal :=
  .obj [("config", .obj ([("identity", .obj [("name", optS inm), ("email", optS iem)]),
                          ("name", optS cnm), ("displayName", optS cdn), ("email", optS cem)]
                         ++ (match mdl with | some v => [("model", v)] | none => []))),
        ("name", .str (anm.getD "")), ("email", .str (aem.getD ""))]

/-- The claim's resolution rule, from the spec's words: the first non-empty
value in priority order, the empty string when all are empty or absent. -/
def firstNonEmpty : List (Option String) → String
  | [] => ""
  | o :: rest =>
      match o with
      | some s => if s = "" then firstNonEmpty rest else s
      | none => firstNonEmpty rest

/-- The claim's avatar rule, from the spec's words: the uppercased first
character of the display name, `"?"` when the name is empty. -/
def avatarStr (n : String) : String :=
  match n.data with
  | [] => "?"
  | c :: _ => String.singleton c.toUpper

/-! ### Comma-list parsing (`_parse_comma_list`, `_parse_comma_int_list`)

From `dashboards/python/routes/settings.py` (identical helpers in
`routes/agents.py` and `django/views/agents.py`). -/

/-- Character class stripped by Python `str.strip()` (ASCII whitespace). -/
def isPySpace (c : Char) : Bool :=
  c = ' ' || c = '\t' || c = '\n' || c = '\r' || c = '\x0b' || c = '\x0c'

/-- Python `str.strip()` on the character level. -/
def pyStrip (l : List Char) : List Char :=
  ((l.dropWhile isPySpace).reverse.dropWhile isPySpace).reverse

/-- Embedding of `_parse_comma_list`: split on commas, strip each piece,
keep the non-empty pieces in order (`[]` for a falsy input). -/
def parse_comma_list (value : String) : List String :=
  if value = "" then []
  else
    ((splitCh ',' value.data).map pyStrip).filterMap
      (fun p => if p.isEmpty then none else some (String.mk p))

/-- Python `int(s)` on an already-stripped token (ASCII model): an optional
sign, then digits with single underscores allowed only between digits. -/
def pyIntOpt (s : String) : Option Int :=
  let rec digitsUS : Nat → List Char → Option Nat
    | acc, [] => some acc
    | acc, '_' :: rest =>
        match rest with
        | c :: rest2 =>
            if c.isDigit then digitsUS (acc * 10 + (c.toNat - 48)) rest2 else none
        | [] => none
    | acc, c :: rest =>
        if c.isDigit then digitsUS (acc * 10 + (c.toNat - 48)) rest else none
  let core : List Char → Option Int := fun cs =>
    match cs with
    | c :: _ => if c.isDigit then (digitsUS 0 cs).map Int.ofNat else none
    | [] => none
  match s.data with
  | '+' :: rest => core rest
  | '-' :: rest => (core rest).map (fun n => -n)
  | cs => core cs

/-- Embedding of `_parse_comma_int_list`: split on commas, strip, and keep the
successfully `int()`-parsed pieces, silently dropping the rest. -/
def parse_comma_int_list (value : String) : List Int :=
  if value = "" then []
  else
    (splitCh ',' value.data).filterMap (fun item =>
      let it := pyStrip item
      if it.isEmpty then none else pyIntOpt (String.mk it))

/-- Python `sep.join(l)` on the character level. -/
def pyJoinCore (sep : List Char) : List (List Char) → List Char
  | [] => []
  | [x] => x
  | x :: y :: rest => x ++ sep ++ pyJoinCore sep (y :: rest)

/-- Python `sep.join(l)`, as used by the agent detail view
(`', '.join(ts_ps.get('allowedDirs') or [])`). -/
def pyJoin (sep : String) (l : List String) : String :=
  ⟨pyJoinCore sep.data (l.map String.data)⟩

/-! ### Badge classifiers

From `dashboards/python/utils/helpers.py` and
`dashboards/django/utils/helpers.py`.  Only the classification tag (the CSS
class chosen for the label) is modelled; the surrounding HTML span is fixed
formatting. -/

/-- Classification tag of the python `badge(text, badge_type=None)` helper:
`(badge_type or text.lower()) if text else 'default'`. -/
def badge_cls (badge_type : Option String) (text : String) : String :=
  if text ≠ "" then
    (match badge_type with
     | some b => if b ≠ "" then b else pyLower text
     | none => pyLower text)
  else "default"

/-- Lookup table of the python `status_badge` helper. -/
def statusBadgeMapping : List (String × String) :=
  [("active", "active"), ("archived", "archived"), ("revoked", "revoked"),
   ("pending", "pending")]

/-- Classification tag of the python `status_badge(status)` helper:
`mapping.get(status, 'default')` (no lowercasing). -/
def status_badge_cls (status : String) : String :=
  (statusBadgeMapping.lookup status).getD "default"

/-- Lookup table of the django `badge` helper. -/
def djangoClsMap : List (String × String) :=
  [("active", "b-a"), ("owner", "b-w"), ("admin", "b-p"), ("member", "b-r"),
   ("viewer", "b-r"), ("archived", "b-r"), ("suspended", "b-r"), ("revoked", "b-r")]

/-- Classification tag of the django `badge(text, badge_type=None)` helper:
`badge_type` when truthy, else `cls_map.get(text.lower() if text else '', 'b-r')`. -/
def django_badge_cls (badge_type : Option String) (text : String) : String :=
  match badge_type with
  | some b => if b ≠ "" then b else (djangoClsMap.lookup (if text ≠ "" then pyLower text else "")).getD "b-r"
  | none => (djangoClsMap.lookup (if text ≠ "" then pyLower text else "")).getD "b-r"

/-! ### Configuration default-merging (`settings.py`) -/

/-- Default `security` section of `_default_tool_security`. -/
def tsDefSecurity : JVal :=
  .obj [("pathSandbox", .obj [("enabled", .bool true), ("allowedDirs", .list []),
                              ("blockedPatterns", .list [])]),
        ("ssrf", .obj [("enabled", .bool true), ("allowedHosts", .list []),
                       ("blockedCidrs", .list [])]),
        ("commandSanitizer", .obj [("enabled", .bool true), ("mode", .str "blocklist"),
                                   ("allowedCommands", .list []), ("blockedPatterns", .list [])])]

/-- Default `middleware` section of `_default_tool_security`. -/
def tsDefMiddleware : JVal :=
  .obj [("audit", .obj [("enabled", .bool true), ("redactKeys", .list [])]),
        ("rateLimit", .obj [("enabled", .bool true), ("overrides", .obj [])]),
        ("circuitBreaker", .obj [("enabled", .bool true)]),
        ("telemetry", .obj [("enabled", .bool true)])]

/-- Embedding of `_default_tool_security()`. -/
def default_tool_security : JVal :=
  .obj [("security", tsDefSecurity), ("middleware", tsDefMiddleware)]

/-- The tool-security merge performed by the `settings` route:
`{'security': ts_config.get('security') or defaults['security'], 'middleware': ...}`.
The argument is the field list of `ts_config` (itself
`ts_data.get('toolSecurityConfig') or {}`, so an absent upstream config is `[]`). -/
def mergeToolSecurity (ts_config : List (String × JVal)) : JVal :=
  .obj [("security", pyOr (jgetD ts_config "security" .null) tsDefSecurity),
        ("middleware", pyOr (jgetD ts_config "middleware" .null) tsDefMiddleware)]

/-- Default `ipAccess` section of `_default_firewall`. -/
def fwDefIpAccess : JVal :=
  .obj [("enabled", .bool false), ("mode", .str "allowlist"), ("allowlist", .list []),
        ("blocklist", .list []), ("bypassPaths", .list [.str "/health", .str "/ready"])]

/-- Default `egress` section of `_default_firewall`. -/
def fwDefEgress : JVal :=
  .obj [("enabled", .bool false), ("mode", .str "blocklist"), ("allowedHosts", .list []),
        ("blockedHosts", .list []), ("allowedPorts", .list []), ("blockedPorts", .list [])]

/-- Default `proxy` section of `_default_firewall`. -/
def fwDefProxy : JVal :=
  .obj [("httpProxy", .str ""), ("httpsProxy", .str ""),
        ("noProxy", .list [.str "localhost", .str "127.0.0.1"])]

/-- Default `trustedProxies` section of `_default_firewall`. -/
def fwDefTrustedProxies : JVal :=
  .obj [("enabled", .bool false), ("ips", .list [])]

/-- Default `network` section of `_default_firewall`.  Note the `corsOrigins`
entry preceding the three sub-sections. -/
def fwDefNetwork : JVal :=
  .obj [("corsOrigins", .list []),
        ("rateLimit", .obj [("enabled", .bool true), ("requestsPerMinute", .int 120),
                            ("skipPaths", .list [.str "/health", .str "/ready"])]),
        ("httpsEnforcement", .obj [("enabled", .bool false), ("excludePaths", .list [])]),
        ("securityHeaders", .obj [("hsts", .bool true), ("hstsMaxAge", .int 31536000),
                                  ("xFrameOptions", .str "DENY"), ("xContentTypeOptions", .bool true),
                                  ("referrerPolicy", .str "strict-origin-when-cross-origin"),
                                  ("permissionsPolicy", .str "camera=(), microphone=(), geolocation()")])]

/-- Embedding of `_default_firewall()`. -/
def default_firewall : JVal :=
  .obj [("ipAccess", fwDefIpAccess), ("egress", fwDefEgress), ("proxy", fwDefProxy),
        ("trustedProxies", fwDefTrustedProxies), ("network", fwDefNetwork)]

/-- The five top-level firewall section keys, in the merge's order. -/
def fwSectionKeys : List String :=
  ["ipAccess", "egress", "proxy", "trustedProxies", "network"]

/-- Default firewall section by key. -/
def fwDefault : String → JVal
  | "ipAccess" => fwDefIpAccess
  | "egress" => fwDefEgress
  | "proxy" => fwDefProxy
  | "trustedProxies" => fwDefTrustedProxies
  | "network" => fwDefNetwork
  | _ => .null

/-- The firewall merge performed by the `settings` route:
`{'ipAccess': fw_config.get('ipAccess') or fw_defaults['ipAccess'], ...}`.
The argument is the field list of `fw_config`
(`fw_data.get('firewallConfig') or {}`). -/
def mergeFirewall (fw_config : List (String × JVal)) : JVal :=
  .obj [("ipAccess", pyOr (jgetD fw_config "ipAccess" .null) fwDefIpAccess),
        ("egress", pyOr (jgetD fw_config "egress" .null) fwDefEgress),
        ("proxy", pyOr (jgetD fw_config "proxy" .null) fwDefProxy),
        ("trustedProxies", pyOr (jgetD fw_config "trustedProxies" .null) fwDefTrustedProxies),
        ("network", pyOr (jgetD fw_config "network" .null) fwDefNetwork)]

/-- Section of a merged config by key (`null` when absent or not a dict). -/
def sectionOf (v : JVal) (k : String) : JVal :=
  match v with
  | .obj fs => jgetD fs k .null
  | _ => .null

/-! ### Relative-time formatting (`time_ago` in `dashboards/python/utils/helpers.py`)

`datetime.fromisoformat` is embedded for whole-second ISO-8601 timestamps
`YYYY-MM-DD[<any one separator char>HH:MM[:SS][±HH:MM]]` with real calendar
validation; other shapes (fractional seconds, offsets with seconds, ...) are
treated as unparseable.  Instants are integer POSIX seconds; the current
instant is an explicit parameter. -/

/-- Parsed aware-or-naive datetime; `tzOffsetMinutes = none` is a naive value. -/
structure PyDateTime where
  year : Nat
  month : Nat
  day : Nat
  hour : Nat
  minute : Nat
  second : Nat
  tzOffsetMinutes : Option Int

/-- Numeric value of two ASCII digits. -/
def d2 (a b : Char) : Option Nat :=
  if a.isDigit && b.isDigit then some ((a.toNat - 48) * 10 + (b.toNat - 48)) else none

/-- Numeric value of four ASCII digits. -/
def d4 (a b c d : Char) : Option Nat :=
  match d2 a b, d2 c d with
  | some hi, some lo => some (hi * 100 + lo)
  | _, _ => none

/-- Gregorian leap-year test. -/
def isLeap (y : Nat) : Bool := (y % 4 == 0 && y % 100 != 0) || y % 400 == 0

/-- Days in a month of the proleptic Gregorian calendar. -/
def daysInMonth (y m : Nat) : Nat :=
  if m = 2 then (if isLeap y then 29 else 28)
  else if m = 4 ∨ m = 6 ∨ m = 9 ∨ m = 11 then 30
  else 31

/-- Parse a trailing UTC offset `±HH:MM` (or nothing). -/
def parseOffset : List Char → Option (Option Int)
  | [] => some none
  | [c, o1, o2, ':', o3, o4] =>
      if c = '+' ∨ c = '-' then
        match d2 o1 o2, d2 o3 o4 with
        | some oh, some om =>
            if oh ≤ 23 && om ≤ 59 then
              some (some (if c = '-' then -(oh * 60 + om : Int) else (oh * 60 + om : Int)))
            else none
        | _, _ => none
      else none
  | _ => none

/-- Parse optional `:SS` followed by an optional offset. -/
def parseSecOff : List Char → Option (Nat × Option Int)
  | ':' :: s1 :: s2 :: rest =>
      match d2 s1 s2 with
      | some s => if s ≤ 59 then (parseOffset rest).map (fun off => (s, off)) else none
      | none => none
  | rest => (parseOffset rest).map (fun off => (0, off))

/-- Parse `HH:MM[:SS][±HH:MM]`. -/
def parseTime (cs : List Char) : Option (Nat × Nat × Nat × Option Int) :=
  match cs with
  | h1 :: h2 :: ':' :: m1 :: m2 :: rest =>
      match d2 h1 h2, d2 m1 m2 with
      | some h, some mi =>
          if h ≤ 23 && mi ≤ 59 then
            (parseSecOff rest).map (fun p => (h, mi, p.1, p.2))
          else none
      | _, _ => none
  | _ => none

/-- Embedding of `datetime.fromisoformat` on the supported grammar. -/
def pyFromIsoformat (s : String) : Option PyDateTime :=
  match s.data with
  | y1 :: y2 :: y3 :: y4 :: '-' :: m1 :: m2 :: '-' :: dd1 :: dd2 :: rest =>
      match d4 y1 y2 y3 y4, d2 m1 m2, d2 dd1 dd2 with
      | some y, some mo, some dy =>
          if 1 ≤ y ∧ 1 ≤ mo ∧ mo ≤ 12 ∧ 1 ≤ dy ∧ dy ≤ daysInMonth y mo then
            match rest with
            | [] => some ⟨y, mo, dy, 0, 0, 0, none⟩
            | _ :: timeChars =>
                (parseTime timeChars).map (fun t => ⟨y, mo, dy, t.1, t.2.1, t.2.2.1, t.2.2.2⟩)
          else none
      | _, _, _ => none
  | _ => none

/-- Days since 1970-01-01 of a proleptic-Gregorian civil date
(floored divisions throughout). -/
def daysFromCivil (y m d : Int) : Int :=
  let y2 := if m ≤ 2 then y - 1 else y
  let era := Int.fdiv y2 400
  let yoe := y2 - era * 400
  let doy := Int.fdiv (153 * (m + (if m > 2 then -3 else 9)) + 2) 5 + d - 1
  let doe := yoe * 365 + Int.fdiv yoe 4 - Int.fdiv yoe 100 + doy
  era * 146097 + doe - 719468

/-- POSIX seconds of a parsed datetime; a naive value is taken as UTC, exactly
as `time_ago` does with `dt.replace(tzinfo=timezone.utc)`. -/
def toEpoch (dt : PyDateTime) : Int :=
  daysFromCivil dt.year dt.month dt.day * 86400
    + dt.hour * 3600 + dt.minute * 60 + dt.second
    - (dt.tzOffsetMinutes.getD 0) * 60

/-- C-locale month abbreviation, as produced by `strftime('%b')`. -/
def monthAbbr : Nat → String
  | 1 => "Jan" | 2 => "Feb" | 3 => "Mar" | 4 => "Apr" | 5 => "May" | 6 => "Jun"
  | 7 => "Jul" | 8 => "Aug" | 9 => "Sep" | 10 => "Oct" | 11 => "Nov" | 12 => "Dec"
  | _ => ""

/-- Zero-padded two-digit field (`strftime('%d')`). -/
def pad2 (n : Nat) : String := if n < 10 then "0" ++ toString n else toString n

/-- Zero-padded four-digit year (`strftime('%Y')`). -/
def pad4 (n : Nat) : String :=
  if n < 10 then "000" ++ toString n
  else if n < 100 then "00" ++ toString n
  else if n < 1000 then "0" ++ toString n
  else toString n

/-- `dt.strftime('%b %d, %Y')`. -/
def strftimeShortDate (dt : PyDateTime) : String :=
  monthAbbr dt.month ++ " " ++ pad2 dt.day ++ ", " ++ pad4 dt.year

/-- Embedding of `time_ago(iso_str)`.  `nowEpoch` is the POSIX-second value of
`datetime.now(timezone.utc)`.  Note that on a parse failure the function
returns `iso2`, the string as rebound after the trailing-`Z` rewrite — exactly
what the Python code does with its reassigned `iso_str`. -/
def time_ago (nowEpoch : Int) (iso_str : String) : String :=
  if iso_str = "" then "Never"
  else
    let iso2 :=
      if iso_str.data.getLast? == some 'Z' then String.mk (iso_str.data.dropLast ++ "+00:00".data)
      else iso_str
    match pyFromIsoformat iso2 with
    | none => iso2
    | some dt =>
        let seconds := nowEpoch - toEpoch dt
        if seconds < 60 then "just now"
        else if seconds < 3600 then toString (Int.fdiv seconds 60) ++ "m ago"
        else if seconds < 86400 then toString (Int.fdiv seconds 3600) ++ "h ago"
        else if seconds < 604800 then toString (Int.fdiv seconds 86400) ++ "d ago"
        else strftimeShortDate dt

/-! ## Helper lemmas -/

lemma pyOr_optS (a : Option String) (v : JVal) :
    pyOr (optS a) v =
      (match a with
       | none => v
       | some s => if s = "" then v else .str s) := by
  rcases a with _ | s
  · rfl
  · by_cases h : s = ""
    · subst h; rfl
    · simp [pyOr, pyTruthy, optS, h]

lemma chain3 (a b c : Option String) :
    pyOr (optS a) (pyOr (optS b) (.str (c.getD ""))) = .str (firstNonEmpty [a, b, c]) := by
  rcases a with _ | sa <;> rcases b with _ | sb <;> rcases c with _ | sc <;>
    simp only [pyOr_optS, firstNonEmpty, Option.getD] <;> split_ifs <;> simp_all

lemma chain4 (a b c d : Option String) :
    pyOr (optS a) (pyOr (optS b) (pyOr (optS c) (.str (d.getD "")))) =
      .str (firstNonEmpty [a, b, c, d]) := by
  rcases a with _ | sa <;> rcases b with _ | sb <;> rcases c with _ | sc <;>
      rcases d with _ | sd <;>
    simp only [pyOr_optS, firstNonEmpty, Option.getD] <;> split_ifs <;> simp_all

lemma uuidRegexMatch_empty : uuidRegexMatch "" = false := rfl

lemma emailFilter_str (e : String) :
    emailFilter (.str e) = .ok (.str (if uuidRegexMatch e then "" else e)) := by
  by_cases h : e = ""
  · subst h; rfl
  · simp only [emailFilter, pyTruthy, if_pos (by simpa using h : (e != "") = true)]
    by_cases hu : uuidRegexMatch e <;> simp [hu]

lemma avatarOf_str (n : String) : avatarOf (.str n) = .ok (avatarStr n) := by
  obtain ⟨l⟩ := n
  cases l <;> rfl

/-- Full characterization of the resolver on string-shaped agent records. -/
lemma resolveAgentFields_mkAgent (inm iem cnm cdn cem : Option String) (mdl : Option JVal)
    (anm aem : Option String) :
    resolveAgentFields (mkAgent inm iem cnm cdn cem mdl anm aem) =
      .ok (.str (firstNonEmpty [inm, cnm, cdn, anm]),
           .str (if uuidRegexMatch (firstNonEmpty [iem, cem, aem]) then ""
                 else firstNonEmpty [iem, cem, aem]),
           avatarStr (firstNonEmpty [inm, cnm, cdn, anm]),
           resolveModelRaw (match mdl with | some v => v | none => .str "")) := by
  cases mdl with
  | none =>
      have h1 : resolveAgentFields (mkAgent inm iem cnm cdn cem none anm aem) =
          Except.bind (emailFilter (pyOr (optS iem) (pyOr (optS cem) (.str (aem.getD "")))))
            (fun email =>
              Except.bind (avatarOf (pyOr (optS inm)
                  (pyOr (optS cnm) (pyOr (optS cdn) (.str (anm.getD ""))))))
                (fun avatar =>
                  Except.ok (pyOr (optS inm)
                      (pyOr (optS cnm) (pyOr (optS cdn) (.str (anm.getD "")))),
                    email, avatar, resolveModelRaw (.str "")))) := rfl
      rw [h1, chain3, chain4, emailFilter_str, avatarOf_str]
      rfl
  | some v =>
      have h1 : resolveAgentFields (mkAgent inm iem cnm cdn cem (some v) anm aem) =
          Except.bind (emailFilter (pyOr (optS iem) (pyOr (optS cem) (.str (aem.getD "")))))
            (fun email =>
              Except.bind (avatarOf (pyOr (optS inm)
                  (pyOr (optS cnm) (pyOr (optS cdn) (.str (anm.getD ""))))))
                (fun avatar =>
                  Except.ok (pyOr (optS inm)
                      (pyOr (optS cnm) (pyOr (optS cdn) (.str (anm.getD "")))),
                    email, avatar, resolveModelRaw v))) := rfl
      rw [h1, chain3, chain4, emailFilter_str, avatarOf_str]
      rfl

lemma chain2 (a b : Option String) :
    pyOr (optS a) (pyOr (optS b) (.str "")) = .str (firstNonEmpty [a, b]) := by
  rcases a with _ | sa <;> rcases b with _ | sb <;>
    simp only [pyOr_optS, firstNonEmpty] <;> split_ifs <;> simp_all

lemma resolveModelRaw_nonObj (v : JVal) (h : v.isObj = false) : resolveModelRaw v = v := by
  cases v <;> simp_all [JVal.isObj, resolveModelRaw]

lemma str_eq_empty_iff (s : String) : s = "" ↔ s.data = [] := String.ext_iff

lemma pyLower_empty_iff (s : String) : pyLower s = "" ↔ s = "" := by
  rw [str_eq_empty_iff, str_eq_empty_iff]
  simp [pyLower]

lemma django_badge_cls_none (s : String) :
    django_badge_cls none s = (djangoClsMap.lookup (pyLower s)).getD "b-r" := by
  by_cases h : s = ""
  · subst h; rfl
  · simp [django_badge_cls, h]

lemma mk_data (s : String) : String.mk s.data = s := rfl

lemma head_dropWhile_false (p : Char → Bool) (l : List Char) (c : Char)
    (h : (l.dropWhile p).head? = some c) : p c = false := by
  induction l with
  | nil => simp at h
  | cons x t ih =>
      rw [List.dropWhile_cons] at h
      by_cases hx : p x = true
      · rw [if_pos hx] at h
        exact ih h
      · rw [if_neg hx] at h
        simp only [List.head?_cons, Option.some.injEq] at h
        subst h
        simpa using hx

lemma dropWhile_getLast?_of_ne_nil (p : Char → Bool) (l : List Char)
    (h : l.dropWhile p ≠ []) : (l.dropWhile p).getLast? = l.getLast? := by
  conv_rhs => rw [← List.takeWhile_append_dropWhile p l]
  rw [List.getLast?_append_of_ne_nil _ h]

lemma pyStrip_head?_false (l : List Char) (c : Char)
    (h : (pyStrip l).head? = some c) : isPySpace c = false := by
  unfold pyStrip at h
  rw [List.head?_reverse] at h
  have hw : (l.dropWhile isPySpace).reverse.dropWhile isPySpace ≠ [] := by
    intro he
    rw [he] at h
    simp at h
  rw [dropWhile_getLast?_of_ne_nil _ _ hw, List.getLast?_reverse] at h
  exact head_dropWhile_false _ _ _ h

lemma pyStrip_getLast?_false (l : List Char) (c : Char)
    (h : (pyStrip l).getLast? = some c) : isPySpace c = false := by
  unfold pyStrip at h
  rw [List.getLast?_reverse] at h
  exact head_dropWhile_false _ _ _ h

lemma splitChP_no_sep (sep : Char) (xs : List Char) (h : sep ∉ xs) :
    splitChP sep xs = (xs, []) := by
  induction xs with
  | nil => rfl
  | cons c t ih =>
      have hc : ¬ c = sep := fun e => h (List.mem_cons.mpr (Or.inl e.symm))
      simp [splitChP, ih (fun hm => h (List.mem_cons_of_mem _ hm)), hc]

lemma splitChP_append_no_sep (sep : Char) (xs ys : List Char) (h : sep ∉ xs) :
    splitChP sep (xs ++ ys) = (xs ++ (splitChP sep ys).1, (splitChP sep ys).2) := by
  induction xs with
  | nil => simp
  | cons c t ih =>
      have hc : ¬ c = sep := fun e => h (List.mem_cons.mpr (Or.inl e.symm))
      simp [splitChP, ih (fun hm => h (List.mem_cons_of_mem _ hm)), hc]

lemma splitCh_append_sep (xs zs : List Char) (h : ',' ∉ xs) :
    splitCh ',' (xs ++ ',' :: zs) = xs :: splitCh ',' zs := by
  simp [splitCh, splitChP_append_no_sep ',' xs (',' :: zs) h, splitChP]

lemma pyStrip_cons_space (l : List Char) : pyStrip (' ' :: l) = pyStrip l := by
  simp [pyStrip, List.dropWhile_cons, isPySpace]

lemma splitCh_strip_cons_space (J : List Char) :
    (splitCh ',' (' ' :: J)).map pyStrip = (splitCh ',' J).map pyStrip := by
  simp [splitCh, splitChP, pyStrip_cons_space]

lemma roundtrip_core (l : List String)
    (h : ∀ x ∈ l, x ≠ "" ∧ ',' ∉ x.data ∧ pyStrip x.data = x.data) :
    ((splitCh ',' (pyJoinCore (", ".data) (l.map String.data))).map pyStrip).filterMap
      (fun p => if p.isEmpty then none else some (String.mk p)) = l := by
  induction l with
  | nil => rfl
  | cons x rest ih =>
      have hx := h x (List.mem_cons_self x rest)
      have hxd : x.data ≠ [] := fun hd => hx.1 ((str_eq_empty_iff x).mpr hd)
      cases rest with
      | nil =>
          rw [show pyJoinCore (", ".data) ([x].map String.data) = x.data from rfl,
            show splitCh ',' x.data = [x.data] from by
              simp [splitCh, splitChP_no_sep ',' x.data hx.2.1]]
          simp [hx.2.2, hxd, mk_data]
      | cons y t =>
          rw [show pyJoinCore (", ".data) ((x :: y :: t).map String.data) =
                x.data ++ ',' :: ' ' :: pyJoinCore (", ".data) ((y :: t).map String.data) from by
              simp [pyJoinCore]]
          rw [splitCh_append_sep _ _ hx.2.1]
          rw [List.map_cons, splitCh_strip_cons_space, hx.2.2]
          rw [List.filterMap_cons]
          have hcond : ¬ (x.data.isEmpty = true) := by
            simpa [List.isEmpty_eq_true] using hxd
          rw [if_neg hcond, mk_data]
          exact congrArg (x :: ·) (ih (fun z hz => h z (List.mem_cons_of_mem _ hz)))

/-! ## Theorems for the claims -/

/-- C1: over agent records whose name fields are strings or absent,
`resolveDisplayName` is the first non-empty value among
`config.identity.name`, `config.name`, `config.displayName`, `agent.name`
(the empty string when all are empty or absent), and the avatar initial is
the uppercased first character of that name, `"?"` when it is empty. -/
theorem resolveDisplayName_avatar_priority (inm iem cnm cdn cem : Option String)
    (mdl : Option JVal) (anm aem : Option String) :
    resolveDisplayName (mkAgent inm iem cnm cdn cem mdl anm aem) =
      .ok (.str (firstNonEmpty [inm, cnm, cdn, anm])) ∧
    resolveAvatarInitial (mkAgent inm iem cnm cdn cem mdl anm aem) =
      .ok (avatarStr (firstNonEmpty [inm, cnm, cdn, anm])) ∧
    avatarStr "" = "?" := by
  refine ⟨?_, ?_, rfl⟩ <;>
    simp [resolveDisplayName, resolveAvatarInitial, resolveAgentFields_mkAgent, Except.map]

/-- C2 (amended): the resolved email is the first non-empty value among
`config.identity.email`, `config.email`, `agent.email`, blanked exactly when
it matches the UUID pattern under Python `re.match` semantics — i.e. the
8-4-4-4-12 hex shape, optionally followed by one trailing newline (`$`
matches before a final newline).  The canonical examples of the claim hold. -/
theorem resolveEmail_amended_uuid_filter (inm iem cnm cdn cem : Option String)
    (mdl : Option JVal) (anm aem : Option String) :
    resolveEmail (mkAgent inm iem cnm cdn cem mdl anm aem) =
      .ok (.str (if uuidRegexMatch (firstNonEmpty [iem, cem, aem]) then ""
                 else firstNonEmpty [iem, cem, aem])) ∧
    isUuidCore "550e8400-e29b-41d4-a716-446655440000" = true ∧
    resolveEmail (mkAgent none none none none none none none
        (some "550e8400-e29b-41d4-a716-446655440000")) = .ok (.str "") ∧
    uuidRegexMatch "ada@example.com" = false ∧
    resolveEmail (mkAgent none none none none none none none (some "ada@example.com")) =
      .ok (.str "ada@example.com") := by
  refine ⟨?_, rfl, rfl, rfl, rfl⟩
  simp [resolveEmail, resolveAgentFields_mkAgent, Except.map]

/-- C5 (amended): `resolveModel` returns, for a structured `config.model`,
the first non-empty of `modelId` and `provider` (empty string when both are
missing or empty); for a plain non-dict scalar it returns the scalar
unchanged — no coercion to string is applied; and for an absent
`config.model` it returns the empty string. -/
theorem resolveModel_amended (mid prov : Option String) (v : JVal) :
    resolveModel (mkAgent none none none none none
        (some (.obj [("modelId", optS mid), ("provider", optS prov)])) none none) =
      .ok (.str (firstNonEmpty [mid, prov])) ∧
    (v.isObj = false →
      resolveModel (mkAgent none none none none none (some v) none none) = .ok v) ∧
    resolveModel (mkAgent none none none none none none none none) = .ok (.str "") ∧
    resolveModel (mkAgent none none none none none
        (some (.obj [("modelId", .str "gpt-4o"), ("provider", .str "openai")])) none none) =
      .ok (.str "gpt-4o") ∧
    resolveModel (mkAgent none none none none none
        (some (.obj [("provider", .str "openai")])) none none) = .ok (.str "openai") ∧
    resolveModel (mkAgent none none none none none (some (.str "claude-3")) none none) =
      .ok (.str "claude-3") := by
  refine ⟨?_, ?_, rfl, rfl, rfl, rfl⟩
  · simp only [resolveModel, resolveAgentFields_mkAgent, Except.map]
    rw [show resolveModelRaw (.obj [("modelId", optS mid), ("provider", optS prov)]) =
          pyOr (optS mid) (pyOr (optS prov) (.str "")) from rfl, chain2]
  · intro h
    simp [resolveModel, resolveAgentFields_mkAgent, Except.map, resolveModelRaw_nonObj _ h]

/-- C5 witness: the scalar clause of `resolveModel_amended` applied at the
concrete non-dict scalar `"claude-3"`. -/
theorem resolveModel_amended_witness :
    JVal.isObj (.str "claude-3") = false ∧
    resolveModel (mkAgent none none none none none (some (.str "claude-3")) none none) =
      .ok (.str "claude-3") :=
  ⟨rfl, (resolveModel_amended none none (.str "claude-3")).2.1 rfl⟩

/-- C9 (amended): on every string-shaped agent record — all name/email fields
strings or absent, `config.model` arbitrary — the resolver raises no
exception, and on maps carrying none of the expected fields (notably the
upstream error shape `{"error": ...}` and the empty map) it returns exactly
the documented defaults `("", "", "?", "")`; but a truthy non-dict `config`
(see the counterexample) is a contract violation that does raise. -/
theorem resolver_totality_amended (inm iem cnm cdn cem : Option String) (mdl : Option JVal)
    (anm aem : Option String) (e : String) :
    (resolveAgentFields (mkAgent inm iem cnm cdn cem mdl anm aem)).isOk = true ∧
    resolveAgentFields (.obj [("error", .str e)]) = .ok (.str "", .str "", "?", .str "") ∧
    resolveAgentFields (.obj []) = .ok (.str "", .str "", "?", .str "") := by
  refine ⟨?_, rfl, rfl⟩
  rw [resolveAgentFields_mkAgent]
  rfl

/-- C4: merging an empty (or entirely absent, which the route also turns into
an empty dict via `or {}`) source into the tool-security defaults yields
exactly the §4.2 tool-security table, spelled out literally. -/
theorem toolSecurity_merge_empty_defaults :
    mergeToolSecurity [] =
      .obj [("security",
              .obj [("pathSandbox", .obj [("enabled", .bool true), ("allowedDirs", .list []),
                                          ("blockedPatterns", .list [])]),
                    ("ssrf", .obj [("enabled", .bool true), ("allowedHosts", .list []),
                                   ("blockedCidrs", .list [])]),
                    ("commandSanitizer", .obj [("enabled", .bool true), ("mode", .str "blocklist"),
                                               ("allowedCommands", .list []),
                                               ("blockedPatterns", .list [])])]),
            ("middleware",
              .obj [("audit", .obj [("enabled", .bool true), ("redactKeys", .list [])]),
                    ("rateLimit", .obj [("enabled", .bool true), ("overrides", .obj [])]),
                    ("circuitBreaker", .obj [("enabled", .bool true)]),
                    ("telemetry", .obj [("enabled", .bool true)])])] := rfl

/-- C6: the bucket thresholds, the `Z`/naive-UTC handling, floor division,
`"Never"` for empty input and the absolute short date all behave as claimed,
but an unparseable input that ends in `'Z'` is NOT returned unchanged: the
code reassigns `iso_str` to the `Z`-rewritten string before parsing and
returns that rebound value on failure, contradicting both the claim and the
function's own docstring ("Returns the original string if parsing fails").
The reference instant is 2024-06-15T12:00:00Z. -/
theorem time_ago_buckets_and_z_rewrite_bug :
    time_ago (toEpoch ⟨2024, 6, 15, 12, 0, 0, some 0⟩) "" = "Never" ∧
    time_ago (toEpoch ⟨2024, 6, 15, 12, 0, 0, some 0⟩) "garbage" = "garbage" ∧
    time_ago (toEpoch ⟨2024, 6, 15, 12, 0, 0, some 0⟩) "2024-06-15T11:59:30Z" = "just now" ∧
    time_ago (toEpoch ⟨2024, 6, 15, 12, 0, 0, some 0⟩) "2024-06-15 11:59:30" = "just now" ∧
    time_ago (toEpoch ⟨2024, 6, 15, 12, 0, 0, some 0⟩) "2024-06-15T11:58:30Z" = "1m ago" ∧
    time_ago (toEpoch ⟨2024, 6, 15, 12, 0, 0, some 0⟩) "2024-06-15T10:00:00Z" = "2h ago" ∧
    time_ago (toEpoch ⟨2024, 6, 15, 12, 0, 0, some 0⟩) "2024-06-12T12:00:00Z" = "3d ago" ∧
    time_ago (toEpoch ⟨2024, 6, 15, 12, 0, 0, some 0⟩) "2024-06-05T12:00:00Z" = "Jun 05, 2024" ∧
    time_ago (toEpoch ⟨2024, 6, 15, 12, 0, 0, some 0⟩) "2024-06-15T13:59:30+02:00" = "just now" ∧
    time_ago (toEpoch ⟨2024, 6, 15, 12, 0, 0, some 0⟩) "notatimeZ" = "notatime+00:00" ∧
    "notatime+00:00" ≠ "notatimeZ" :=
  ⟨rfl, rfl, rfl, rfl, rfl, rfl, rfl, rfl, rfl, rfl, by decide⟩

/-- C3 counterexample: (a) a section that is present and non-null in the
source — the empty dict under `ipAccess` — is nevertheless replaced by the
default, because the merge tests Python truthiness, not nullness; (b) the
default `network` section does not consist of exactly `rateLimit`,
`httpsEnforcement` and `securityHeaders`: it also carries `corsOrigins`. -/
theorem firewall_merge_cex :
    sectionOf (mergeFirewall [("ipAccess", .obj [])]) "ipAccess" = fwDefIpAccess ∧
    JVal.obj [] ≠ fwDefIpAccess ∧
    sectionOf (mergeFirewall []) "network" = fwDefNetwork ∧
    (match fwDefNetwork with
     | .obj fs => fs.map Prod.fst
     | _ => []) = ["corsOrigins", "rateLimit", "httpsEnforcement", "securityHeaders"] := by
  refine ⟨rfl, ?_, rfl, rfl⟩
  intro h
  simp [fwDefIpAccess] at h

/-- C5 counterexample: a plain non-string scalar under `config.model` is
returned as the scalar itself; no coercion to string takes place
(`model = model_raw` in the code has no `str(...)`). -/
theorem resolveModel_scalar_coercion_cex :
    resolveModel (mkAgent none none none none none (some (.int 5)) none none) = .ok (.int 5) ∧
    JVal.int 5 ≠ JVal.str "5" := by
  refine ⟨rfl, ?_⟩
  intro h
  exact JVal.noConfusion h

/-- C9 counterexample: a JSON-like map whose `config` field is a truthy
non-dict makes the resolver raise (`'str' object has no attribute 'get'`),
so "raises no exception for every JSON-like map input" fails. -/
theorem resolver_raises_cex :
    resolveAgentFields (.obj [("config", .str "hello")]) = .error "AttributeError" ∧
    (resolveAgentFields (.obj [("config", .str "hello")])).isOk = false :=
  ⟨rfl, rfl⟩

/-- C8 counterexample: the python `status_badge` classifier looks its label up
without lowercasing, so the case-variants `"ACTIVE"` and `"active"` classify
differently; and the python `badge` classifier maps unmatched labels to their
own lowercased text, not to one fixed fallback tag. -/
theorem status_badge_case_sensitivity_cex :
    status_badge_cls "ACTIVE" = "default" ∧ status_badge_cls "active" = "active" ∧
    status_badge_cls "ACTIVE" ≠ status_badge_cls "active" ∧
    badge_cls none "zzz" = "zzz" ∧ badge_cls none "yyy" = "yyy" ∧
    badge_cls none "zzz" ≠ badge_cls none "yyy" :=
  ⟨rfl, rfl, by decide, rfl, rfl, by decide⟩

/-- C3 (amended): every top-level firewall section that is present and truthy
(non-empty, non-null, non-false) in the source appears wholesale in the merged
result, every other section is replaced wholesale by its fixed default, and
merging an empty source yields exactly `_default_firewall()` — whose `network`
section also carries `corsOrigins: []` in addition to the three sub-sections
named by the claim. -/
theorem firewall_merge_amended (src : List (String × JVal)) (k : String)
    (hk : k ∈ fwSectionKeys) :
    sectionOf (mergeFirewall src) k =
      (if pyTruthy (jgetD src k .null) then jgetD src k .null else fwDefault k) ∧
    mergeFirewall [] = default_firewall := by
  refine ⟨?_, rfl⟩
  simp only [fwSectionKeys, List.mem_cons, List.not_mem_nil, or_false] at hk
  rcases hk with rfl | rfl | rfl | rfl | rfl <;> rfl

/-- C3 witness: the amended merge rule applied at a concrete source holding a
truthy `egress` section, which the merge keeps wholesale. -/
theorem firewall_merge_amended_witness :
    sectionOf (mergeFirewall [("egress", .obj [("enabled", .bool true)])]) "egress" =
      (if pyTruthy (jgetD [("egress", .obj [("enabled", .bool true)])] "egress" .null)
       then jgetD [("egress", .obj [("enabled", .bool true)])] "egress" .null
       else fwDefault "egress") ∧
    mergeFirewall [] = default_firewall :=
  firewall_merge_amended [("egress", .obj [("enabled", .bool true)])] "egress"
    (by simp [fwSectionKeys])

/-- C8 (amended): the django `badge` classifier is case-insensitive and maps
unmatched labels to the fixed fallback `"b-r"`; the python `badge` classifier
is case-insensitive because it tags every non-empty label with its own
lowercased text (so it has no fixed fallback tag); the python `status_badge`
classifier looks labels up without lowercasing, so the case-variant
`"ACTIVE"` of `"active"` falls to the fallback `"default"`. -/
theorem badge_classification_amended (s t : String) :
    (pyLower s = pyLower t → django_badge_cls none s = django_badge_cls none t) ∧
    (djangoClsMap.lookup (pyLower s) = none → django_badge_cls none s = "b-r") ∧
    (pyLower s = pyLower t → badge_cls none s = badge_cls none t) ∧
    (s ≠ "" → badge_cls none s = pyLower s) ∧
    django_badge_cls none "ACTIVE" = django_badge_cls none "active" ∧
    status_badge_cls "ACTIVE" = "default" ∧ status_badge_cls "active" = "active" := by
  refine ⟨?_, ?_, ?_, ?_, rfl, rfl, rfl⟩
  · intro h
    rw [django_badge_cls_none, django_badge_cls_none, h]
  · intro h
    rw [django_badge_cls_none, h]
    rfl
  · intro h
    by_cases hs : s = ""
    · subst hs
      have ht : t = "" := (pyLower_empty_iff t).1 (by simpa using h.symm)
      subst ht
      rfl
    · have ht : t ≠ "" := fun ht => hs ((pyLower_empty_iff s).1 (by simp [ht] at h; simpa using h))
      simp [badge_cls, hs, ht, h]
  · intro h
    simp [badge_cls, h]

/-- C8 witness: the amended case-insensitivity and fallback rules applied at
concrete labels. -/
theorem badge_classification_amended_witness :
    django_badge_cls none "Active" = django_badge_cls none "aCtIvE" ∧
    django_badge_cls none "zzz" = "b-r" ∧
    badge_cls none "OWNER" = badge_cls none "owner" ∧
    badge_cls none "OWNER" = "owner" :=
  ⟨(badge_classification_amended "Active" "aCtIvE").1 rfl,
   (badge_classification_amended "zzz" "zzz").2.1 rfl,
   (badge_classification_amended "OWNER" "owner").2.2.1 rfl,
   ((badge_classification_amended "OWNER" "x").2.2.2.1 (by decide)).trans rfl⟩

/-- C2 counterexample: a UUID with one trailing newline does not match the
canonical 8-4-4-4-12 pattern the claim names, yet `resolveEmail` still blanks
it, because Python's `$` also matches just before a final newline. -/
theorem resolveEmail_uuid_trailing_newline_cex :
    resolveEmail (mkAgent none none none none none none none
        (some "550e8400-e29b-41d4-a716-446655440000\n")) = .ok (.str "") ∧
    isUuidCore "550e8400-e29b-41d4-a716-446655440000\n" = false ∧
    ("" : String) ≠ "550e8400-e29b-41d4-a716-446655440000\n" :=
  ⟨rfl, rfl, by decide⟩

/-- C7: the comma-list parser drops empty pieces, trims each surviving piece
(no leading or trailing whitespace remains), preserves order (witnessed by the
claim's concrete example), and the integer variant is exactly the comma-list
parse followed by `int()`-filtering that silently discards unparseable
pieces. -/
theorem parse_comma_lists_spec :
    parse_comma_list " a, b ,,c " = ["a", "b", "c"] ∧
    parse_comma_int_list "80, x, 443" = [80, 443] ∧
    (∀ value, parse_comma_int_list value = (parse_comma_list value).filterMap pyIntOpt) ∧
    (∀ value x, x ∈ parse_comma_list value →
      x ≠ "" ∧ (∀ c, x.data.head? = some c → isPySpace c = false) ∧
      (∀ c, x.data.getLast? = some c → isPySpace c = false)) := by
  refine ⟨rfl, rfl, ?_, ?_⟩
  · intro value
    by_cases h : value = ""
    · subst h; rfl
    · simp only [parse_comma_list, parse_comma_int_list, if_neg h]
      rw [List.filterMap_map, List.filterMap_filterMap]
      congr 1
      funext item
      simp only [Function.comp]
      by_cases he : (pyStrip item).isEmpty <;> simp [he]
  · intro value x hx
    by_cases h : value = ""
    · simp [parse_comma_list, h] at hx
    · simp only [parse_comma_list, if_neg h, List.filterMap_map, List.mem_filterMap,
        Function.comp] at hx
      obtain ⟨q, _, hfx⟩ := hx
      by_cases he : (pyStrip q).isEmpty
      · rw [if_pos he] at hfx
        exact absurd hfx (by simp)
      · rw [if_neg he] at hfx
        obtain rfl : String.mk (pyStrip q) = x := by
          simpa using hfx
        refine ⟨?_, ?_, ?_⟩
        · rw [Ne, str_eq_empty_iff]
          simpa [List.isEmpty_eq_true] using he
        · intro c hc
          exact pyStrip_head?_false q c hc
        · intro c hc
          exact pyStrip_getLast?_false q c hc

/-- C7 witness: the int-variant identity applied at the claim's example, and
the per-element clause applied at `"a" ∈ parse_comma_list " a, b ,,c "`. -/
theorem parse_comma_lists_spec_witness :
    parse_comma_int_list "80, x, 443" = (parse_comma_list "80, x, 443").filterMap pyIntOpt ∧
    ("a" : String) ≠ "" :=
  ⟨parse_comma_lists_spec.2.2.1 "80, x, 443",
   (parse_comma_lists_spec.2.2.2 " a, b ,,c " "a" (by decide)).1⟩

/-- C10: joining with `", "` (as the agent detail view does for tool-security
lists) and re-parsing with the comma-list parser is the identity on lists of
non-empty, comma-free, already-trimmed strings. -/
theorem join_parse_roundtrip (l : List String)
    (h : ∀ x ∈ l, x ≠ "" ∧ ',' ∉ x.data ∧ pyStrip x.data = x.data) :
    parse_comma_list (pyJoin ", " l) = l := by
  cases l with
  | nil => rfl
  | cons x rest =>
      have hx := h x (List.mem_cons_self x rest)
      have hxd : x.data ≠ [] := fun hd => hx.1 ((str_eq_empty_iff x).mpr hd)
      have hne : pyJoin ", " (x :: rest) ≠ "" := by
        rw [Ne, str_eq_empty_iff]
        cases rest with
        | nil => simpa [pyJoin, pyJoinCore]
        | cons y t => simp [pyJoin, pyJoinCore, hxd]
      simp only [parse_comma_list, if_neg hne]
      exact roundtrip_core (x :: rest) h

/-- C10 witness: the round-trip applied at the concrete list `["a", "bc"]`. -/
theorem join_parse_roundtrip_witness :
    (∀ x ∈ (["a", "bc"] : List String), x ≠ "" ∧ ',' ∉ x.data ∧ pyStrip x.data = x.data) ∧
    parse_comma_list (pyJoin ", " ["a", "bc"]) = ["a", "bc"] :=
  ⟨by decide, join_parse_roundtrip ["a", "bc"] (by decide)⟩

end AgenticMail
